import Mathlib

/-
Verification development for the browser-session control client
(frontend/src/lib/stores/turn.ts "browserStore", the message bar component,
the command registry in browser.svelte, and the agent message component).

The client-side state, REST calls and push-channel handlers are embedded as
pure Lean functions.  Network calls are made explicit: each operation that
performs a fetch takes the response outcome (`RestResult`) as a parameter and
returns, besides the updated state, the list of REST calls it issued.
-/

/-- The browser lifecycle phase store (`browserStatus` in turn.ts). -/
inductive BrowserStatus
  | idle
  | starting
  | running
  | stopping
deriving DecidableEq, Repr

/-- WebSocket readyState values, as compared against in turn.ts. -/
inductive ReadyState
  | CONNECTING
  | OPEN
  | CLOSING
  | CLOSED
deriving DecidableEq, Repr

/-- The `turn` store from stores/turn.ts. -/
inductive Turn
  | idle
  | starting
  | running
  | stopping
deriving DecidableEq, Repr

/-- The module-level state of the browser store (turn.ts): the writable
stores plus the socket handle and keepalive interval variables. -/
structure Store where
  connected : Bool
  messages : List String
  browserScreenshot : String
  isLoading : Bool
  browserStatus : BrowserStatus
  urlInput : String
  promptInput : String
  fpsValue : Int
  socket : Option ReadyState
  pingInterval : Option Nat
deriving DecidableEq, Repr

/-- Outcome of an awaited `fetch(...).json()`: the backend's `data.message`,
or the thrown error message. -/
inductive RestResult
  | success (message : String)
  | failure (error : String)
deriving DecidableEq, Repr

/-- The REST endpoints the store talks to, with the request payload. -/
inductive NetCall
  | browserStart
  | browserStop
  | browserNavigate (url : String)
  | agentRun (prompt : String)
  | streamingSetFps (fps : Int)
deriving DecidableEq, Repr

/-- Models JavaScript `String.prototype.startsWith`. -/
def strStartsWith (s p : String) : Bool :=
  List.isPrefixOf p.data s.data

/-- Models JavaScript `String.prototype.includes` for a single character. -/
def strContains (s : String) (c : Char) : Bool :=
  s.data.contains c

/-- JavaScript whitespace recognized by `String.prototype.trim`
(space, tab, line feed, vertical tab, form feed, carriage return). -/
def isJsWhitespace (c : Char) : Bool :=
  c = ' ' || c.toNat = 9 || c.toNat = 10 || c.toNat = 11 || c.toNat = 12 || c.toNat = 13

/-- Models JavaScript `String.prototype.trim`. -/
def jsTrim (s : String) : String :=
  String.mk (((s.data.dropWhile isJsWhitespace).reverse.dropWhile isJsWhitespace).reverse)

/-- ASCII lowercasing of a single character, as hostname normalization does. -/
def asciiToLower (c : Char) : Char :=
  if 65 ≤ c.toNat ∧ c.toNat ≤ 90 then Char.ofNat (c.toNat + 32) else c

namespace BrowserStore

/-- The `from` discriminator of `addMessage` (System / Agent / User). -/
inductive Origin
  | system
  | agent
  | user
deriving DecidableEq, Repr

/-- addMessage (turn.ts): toasts for System origin (presentation, out of
scope) and appends the message text to the `messages` store. -/
def addMessage (st : Store) (origin : Origin) (message : String) (error : Bool) : Store :=
  { st with messages := st.messages ++ [message] }

/-- connectWebSocket (turn.ts): returns immediately when the socket is
already OPEN, otherwise creates a fresh socket (readyState CONNECTING). -/
def connectWebSocket (st : Store) : Store :=
  match st.socket with
  | some ReadyState.OPEN => st
  | _ => { st with socket := some ReadyState.CONNECTING }

/-- The socket `onopen` handler: sets `connected`, logs a system message and
arms the keepalive ping interval (`intervalId` is the timer handle that
`window.setInterval` returned). -/
def wsOnOpen (intervalId : Nat) (st : Store) : Store :=
  { st with
      socket := some ReadyState.OPEN
      connected := true
      messages := st.messages ++ ["Connected to server"]
      pingInterval := some intervalId }

/-- The socket `onclose` handler: clears `connected` and cancels the
keepalive interval. -/
def wsOnClose (st : Store) : Store :=
  { st with
      socket := some ReadyState.CLOSED
      connected := false
      pingInterval := none }

/-- disconnectWebSocket (turn.ts): closes and nulls the socket if present,
clears the keepalive interval if armed, and sets `connected` to false.  The
two guarded branches land in the same state as the unguarded updates. -/
def disconnectWebSocket (st : Store) : Store :=
  { st with
      socket := none
      pingInterval := none
      connected := false }

/-- startBrowser (turn.ts): phase to `starting` and loading on entry; on a
successful POST /browser/start logs the message and moves to `running`; on
failure logs an error, reverts to `idle` and clears loading. -/
def startBrowser (res : RestResult) (st : Store) : Store × List NetCall :=
  let st1 := { st with browserStatus := BrowserStatus.starting, isLoading := true }
  match res with
  | RestResult.success msg =>
    let st2 := addMessage st1 Origin.system msg false
    ({ st2 with browserStatus := BrowserStatus.running }, [NetCall.browserStart])
  | RestResult.failure e =>
    let st2 := addMessage st1 Origin.system ("Failed to start browser - " ++ e) true
    ({ st2 with browserStatus := BrowserStatus.idle, isLoading := false },
     [NetCall.browserStart])

/-- stopBrowser (turn.ts): phase to `stopping` on entry; on success logs the
message, clears the screenshot and moves to `idle`; on failure logs an error
and reverts to `running`. -/
def stopBrowser (res : RestResult) (st : Store) : Store × List NetCall :=
  let st1 := { st with browserStatus := BrowserStatus.stopping }
  match res with
  | RestResult.success msg =>
    let st2 := addMessage st1 Origin.system msg false
    ({ st2 with browserScreenshot := "", browserStatus := BrowserStatus.idle },
     [NetCall.browserStop])
  | RestResult.failure e =>
    let st2 := addMessage st1 Origin.system ("Failed to stop browser - " ++ e) true
    ({ st2 with browserStatus := BrowserStatus.running }, [NetCall.browserStop])

/-- navigateToUrl (turn.ts): empty URL is rejected locally with an error
message and no call; otherwise sets loading and POSTs /browser/navigate,
logging the response message on success or an error on failure (only the
failure branch clears loading; a later screenshot push clears it on
success).  No branch writes `browserStatus`. -/
def navigateToUrl (res : RestResult) (url : String) (st : Store) : Store × List NetCall :=
  if url = "" then
    (addMessage st Origin.system "Please enter a URL" true, [])
  else
    let st1 := { st with isLoading := true }
    match res with
    | RestResult.success msg =>
      (addMessage st1 Origin.system msg false, [NetCall.browserNavigate url])
    | RestResult.failure e =>
      ({ addMessage st1 Origin.system ("Failed to navigate - " ++ e) true with
          isLoading := false },
       [NetCall.browserNavigate url])

/-- runAgent (turn.ts): empty prompt is rejected locally; otherwise logs the
prompt, POSTs /agent/run and logs the response `data.message` (or the
error).  The JavaScript function has no return statement in any branch, so
its value is always `undefined`, modelled as the `Option String` component
being `none`. -/
def runAgent (res : RestResult) (prompt : String) (st : Store) :
    Store × List NetCall × Option String :=
  if prompt = "" then
    (addMessage st Origin.system "Please enter a prompt" true, [], none)
  else
    let st1 := addMessage st Origin.system ("Running agent with prompt: " ++ prompt) false
    match res with
    | RestResult.success msg =>
      (addMessage st1 Origin.system msg false, [NetCall.agentRun prompt], none)
    | RestResult.failure e =>
      (addMessage st1 Origin.system ("Failed to run agent - " ++ e) true,
       [NetCall.agentRun prompt], none)

/-- setFps (turn.ts): POSTs /streaming/set-fps with the given fps value
unconditionally (no local range check) and logs a confirmation or error. -/
def setFps (res : RestResult) (fps : Int) (st : Store) : Store × List NetCall :=
  match res with
  | RestResult.success m =>
    (addMessage st Origin.system ("FPS set to " ++ toString fps) false,
     [NetCall.streamingSetFps fps])
  | RestResult.failure e =>
    (addMessage st Origin.system ("Failed to set FPS - " ++ e) true,
     [NetCall.streamingSetFps fps])

end BrowserStore

/-- Helper for `hasProtocol`: having consumed the leading letter, scan
scheme characters until the literal "://". -/
def schemeSepCheck : List Char → Bool
  | ':' :: '/' :: '/' :: _ => true
  | c :: rest =>
    if c.isAlpha || c.isDigit || c = '+' || c = '.' || c = '-' then schemeSepCheck rest
    else false
  | [] => false

/-- The protocol test of navigateToURL (browser.svelte): the regex
checking for a leading URI scheme followed by "://", case-insensitive. -/
def hasProtocol (s : String) : Bool :=
  match s.data with
  | [] => false
  | c :: rest => c.isAlpha && schemeSepCheck rest

/-- Splits a character list at the first occurrence of "://". -/
def splitAtSchemeSep : List Char → Option (List Char × List Char)
  | [] => none
  | ':' :: '/' :: '/' :: rest => some ([], rest)
  | c :: rest =>
    match splitAtSchemeSep rest with
    | some (a, b) => some (c :: a, b)
    | none => none

/-- A syntactically valid URI scheme: a letter followed by letters, digits,
plus, dot or hyphen. -/
def isSchemeStr : List Char → Bool
  | [] => false
  | c :: rest =>
    c.isAlpha && rest.all (fun d => d.isAlpha || d.isDigit || d = '+' || d = '.' || d = '-')

/-- Characters that make a domain invalid under WHATWG URL host parsing:
controls and space, delete and non-ASCII (the model rejects non-ASCII
instead of applying IDNA), and the forbidden domain code points that are
not already consumed as authority delimiters. -/
def forbiddenDomainChar (c : Char) : Bool :=
  c.toNat < 33 || c.toNat ≥ 127 || c = '#' || c = '%' || c = '<' || c = '>' ||
  c = '[' || c = ']' || c = '^' || c = '|'

/-- Drops the userinfo part of an authority: keeps what follows the last
at sign (everything before it is userinfo). -/
def afterLastAt (l : List Char) : List Char :=
  l.foldl (fun acc c => if c = '@' then [] else acc ++ [c]) []

/-- Splits host and port at the first colon. -/
def splitFirstColon : List Char → List Char × List Char
  | [] => ([], [])
  | c :: rest =>
    if c = ':' then ([], rest)
    else
      let hp := splitFirstColon rest
      (c :: hp.1, hp.2)

/-- Strict split of a character list on dots (the empty list of parts is
never produced: splitting the empty string yields one empty part). -/
def splitOnDot : List Char → List (List Char)
  | [] => [[]]
  | c :: rest =>
    if c = '.' then [] :: splitOnDot rest
    else
      match splitOnDot rest with
      | [] => [[c]]
      | p :: ps => (c :: p) :: ps

/-- Whether a character is a digit of the given radix (host input is
already lowercased, so hex digits are 0-9 and a-f). -/
def isRadixDigit (r : Nat) (c : Char) : Bool :=
  if r = 16 then c.isDigit || (97 ≤ c.toNat && c.toNat ≤ 102)
  else if r = 8 then 48 ≤ c.toNat && c.toNat ≤ 55
  else c.isDigit

/-- Numeric value of a radix digit (0-9, or lowercase a-f). -/
def radixDigitVal (c : Char) : Nat :=
  if c.isDigit then c.toNat - 48 else c.toNat - 87

/-- The WHATWG IPv4 number parser: empty input fails; a 0x prefix selects
hex, a remaining leading 0 selects octal, otherwise decimal; a prefix with
nothing after it is 0; any non-radix digit fails. -/
def parseIPv4Number (l : List Char) : Option Nat :=
  if l = [] then none
  else
    let rl := if 2 ≤ l.length ∧ l.take 2 = ['0', 'x'] then (16, l.drop 2)
              else if 2 ≤ l.length ∧ l.take 1 = ['0'] then (8, l.drop 1)
              else (10, l)
    let r := rl.1
    let l2 := rl.2
    if l2 = [] then some 0
    else if l2.all (isRadixDigit r) then
      some (l2.foldl (fun n c => n * r + radixDigitVal c) 0)
    else none

/-- The WHATWG ends-in-a-number checker: split on dots, drop one trailing
empty part (unless it is the only part), and test whether the last part is
all digits or parses as an IPv4 number. -/
def endsInANumber (host : List Char) : Bool :=
  let parts := splitOnDot host
  if parts.getLast? = some [] ∧ parts.length = 1 then false
  else
    let parts2 := if parts.getLast? = some [] then parts.dropLast else parts
    match parts2.getLast? with
    | none => false
    | some last =>
      if last ≠ [] ∧ last.all Char.isDigit then true
      else (parseIPv4Number last).isSome

/-- The WHATWG IPv4 parser: split on dots, drop one trailing empty part
when there is more than one, fail on more than four parts, parse every part
as an IPv4 number, require every part but the last at most 255 and the last
below 256 to the power of the remaining positions, and combine into the
32-bit address. -/
def parseIPv4 (host : List Char) : Option Nat :=
  let parts0 := splitOnDot host
  let parts := if parts0.getLast? = some [] ∧ 1 < parts0.length then parts0.dropLast
               else parts0
  if 4 < parts.length then none
  else
    let nums := parts.map parseIPv4Number
    if nums.any Option.isNone then none
    else
      let numbers := nums.filterMap id
      if numbers.dropLast.any (fun n => 255 < n) then none
      else
        match numbers.getLast? with
        | none => none
        | some last =>
          if 256 ^ (5 - numbers.length) ≤ last then none
          else
            some ((numbers.dropLast.foldl
              (fun (p : Nat × Nat) n => (p.1 + n * 256 ^ (3 - p.2), p.2 + 1))
              (last, 0)).1)

/-- The WHATWG IPv4 serializer: the four bytes of the address, most
significant first, joined by dots. -/
def serializeIPv4 (addr : Nat) : List Char :=
  (toString (addr / 16777216 % 256)).data ++ '.' ::
  (toString (addr / 65536 % 256)).data ++ '.' ::
  (toString (addr / 256 % 256)).data ++ '.' ::
  (toString (addr % 256)).data

/-- Models the hostname the WHATWG `URL` constructor yields (or a parse
failure, `none`) for special-scheme URLs, as used by navigateToURL in
browser.svelte: the authority is isolated, userinfo and port are split
off, the domain is validated and lowercased, and — per the standard — a
domain that ends in a number is handed to the IPv4 parser, whose failure
is a host parse failure and whose success serializes to the dotted
address.  Simplifications, each kept outside the inputs the theorems
quantify over: input is not stripped of tabs and newlines (such
characters make the host invalid here), percent escapes are not decoded
(a percent sign makes the host invalid here), and IDNA is restricted to
ASCII pass-through with lowercasing (non-ASCII makes the host invalid
here). -/
def urlHostname (u : String) : Option String :=
  match splitAtSchemeSep u.data with
  | none => none
  | some (scheme, rest) =>
    if isSchemeStr scheme then
      let authority := rest.takeWhile (fun c => !(c = '/' || c = '\\' || c = '?' || c = '#'))
      let hostPort := afterLastAt authority
      let hp := splitFirstColon hostPort
      let host := hp.1
      let port := hp.2
      if host ≠ [] ∧ host.all (fun c => !(forbiddenDomainChar c)) = true ∧
          port.all Char.isDigit = true ∧
          port.foldl (fun n c => n * 10 + (c.toNat - 48)) 0 ≤ 65535 then
        let lhost := host.map asciiToLower
        if endsInANumber lhost then
          match parseIPv4 lhost with
          | some addr => some (String.mk (serializeIPv4 addr))
          | none => none
        else some (String.mk lhost)
      else none
    else none

namespace BrowserCmd

/-- The `{status, message}` object Command onSend handlers resolve with. -/
structure CmdResult where
  status : String
  message : String
deriving DecidableEq, Repr

/-- What the runAgent command wrapper (browser.svelte) resolves with:
a started outcome carrying the id, a failed outcome, or `undefined` when
the function falls through without returning. -/
inductive AgentOutcome
  | started (id : String)
  | failedRun (message : String)
  | undefinedResult
deriving DecidableEq, Repr

/-- navigateToURL (browser.svelte, the goto command's onSend): trims the
input, prefixes "https://" when no scheme-with-"://" is present, parses the
processed URL, and only when the hostname contains a dot and is longer than
3 characters dispatches the store's navigateToUrl and resolves completed;
otherwise (including URL parse failure) resolves failed with no call. -/
def navigateToURL (res : RestResult) (url : String) (st : Store) :
    Store × List NetCall × CmdResult :=
  let processedUrl0 := jsTrim url
  let processedUrl :=
    if hasProtocol processedUrl0 then processedUrl0 else "https://" ++ processedUrl0
  match urlHostname processedUrl with
  | some hostname =>
    if strContains hostname '.' && decide (3 < hostname.length) then
      let r := BrowserStore.navigateToUrl res processedUrl st
      (r.1, r.2, { status := "completed", message := "Navigated to " ++ processedUrl })
    else
      (st, [], { status := "failed", message := processedUrl ++ " is not a valid URL" })
  | none =>
    (st, [], { status := "failed", message := processedUrl ++ " is not a valid URL" })

/-- runAgent (browser.svelte, the prompt command's onSend): awaits the
store's runAgent; were an id returned it would resolve started with it, but
the store function always yields `undefined`, so the wrapper falls through
and itself resolves `undefined`.  The catch branch is unreachable because
the store function handles its own errors. -/
def runAgent (res : RestResult) (prompt : String) (st : Store) :
    Store × List NetCall × AgentOutcome :=
  match BrowserStore.runAgent res prompt st with
  | (st1, calls, some i) => (st1, calls, AgentOutcome.started i)
  | (st1, calls, none) => (st1, calls, AgentOutcome.undefinedResult)

end BrowserCmd

/-- Models the HTML range input element (platform behavior configured by
the fps control in browser.svelte): the element's value is clamped into
the interval given by its min and max attributes. -/
def rangeInputValue (minV maxV v : Int) : Int :=
  max minV (min maxV v)

/-- The fps control (browser.svelte): a range input with min 1, max 30,
step 1 bound to the `fpsValue` store. -/
def fpsControlValue (v : Int) : Int :=
  rangeInputValue 1 30 v

/-- The Apply button of the fps control dispatches setFps with the range
control's (clamped) value. -/
def applyFpsClick (res : RestResult) (v : Int) (st : Store) : Store × List NetCall :=
  BrowserStore.setFps res (fpsControlValue v) st

namespace Dispatch

/-- Component state of the message bar (the unnamed messagebar component):
the text buffer, the armed action and the `disabled` prop. -/
structure MBState where
  inputText : String
  selectedAction : Option String
  disabled : Bool
deriving DecidableEq, Repr

/-- A dispatched `action` custom event payload. -/
structure DAction where
  action : String
  value : String
deriving DecidableEq, Repr

/-- submitAction (messagebar component): a no-op when the buffer is empty
or no action is armed; otherwise dispatches the armed action with the
buffer and clears both. -/
def submitAction (mb : MBState) : MBState × Option DAction :=
  if mb.inputText = "" ∨ mb.selectedAction = none then (mb, none)
  else
    match mb.selectedAction with
    | some a =>
      ({ mb with inputText := "", selectedAction := none }, some { action := a, value := mb.inputText })
    | none => (mb, none)

/-- The Send button: its disabled attribute is
`!inputText || !selectedAction || disabled`; a click on an enabled button
runs submitAction. -/
def sendButtonClick (mb : MBState) : MBState × Option DAction :=
  if mb.inputText = "" ∨ mb.selectedAction = none ∨ mb.disabled = true then (mb, none)
  else submitAction mb

/-- Enter (without shift) in the textarea: the textarea carries the
`disabled` attribute, so a disabled component receives no keydown; when
enabled, handleKeydown runs submitAction if the buffer is non-empty. -/
def enterKeydown (mb : MBState) : MBState × Option DAction :=
  if mb.disabled = true then (mb, none)
  else if mb.inputText = "" then (mb, none)
  else submitAction mb

/-- The Invocation lifecycle state of the spec's data model. -/
inductive InvState
  | pending
  | started
  | completed
  | failed
deriving DecidableEq, Repr

/-- An Invocation: one tracked execution of a command. -/
structure Invocation where
  commandId : String
  inputText : String
  state : InvState
  interactionId : Option String
deriving DecidableEq, Repr

/-- How the backend answers a dispatched submission: an asynchronous start
carrying an interaction identifier, or an immediate terminal outcome. -/
inductive SubmitResult
  | startedWith (id : String)
  | syncCompleted (msg : String)
  | syncFailed (msg : String)
deriving DecidableEq, Repr

/-- Modelled from the spec: the page component that receives the message
bar's dispatched action and creates an Invocation for it is not under
src/; per the spec, an asynchronous start yields a `Started` Invocation
holding the backend's interaction identifier, and an immediate outcome
yields a terminal Invocation. -/
def mkInvocation (act : DAction) (r : SubmitResult) : Invocation :=
  match r with
  | SubmitResult.startedWith id =>
    { commandId := act.action, inputText := act.value, state := InvState.started,
      interactionId := some id }
  | SubmitResult.syncCompleted _ =>
    { commandId := act.action, inputText := act.value, state := InvState.completed,
      interactionId := none }
  | SubmitResult.syncFailed _ =>
    { commandId := act.action, inputText := act.value, state := InvState.failed,
      interactionId := none }

/-- Whether an Invocation is in the `Started` state. -/
def isStartedInv (i : Invocation) : Bool :=
  i.state = InvState.started

/-- Whether some Invocation is `Started`. -/
def anyStarted (invs : List Invocation) : Bool :=
  invs.any isStartedInv

/-- Number of `Started` Invocations. -/
def startedCount (invs : List Invocation) : Nat :=
  (invs.filter isStartedInv).length

/-- The agent message component resolving the outstanding Invocation:
a `Started` Invocation becomes `Completed`, others are untouched. -/
def resolveInv (i : Invocation) : Invocation :=
  if i.state = InvState.started then { i with state := InvState.completed } else i

/-- The combined state of the message bar and the Invocations the page
created for its dispatches. -/
structure DispatchState where
  mb : MBState
  invocations : List Invocation
deriving DecidableEq, Repr

/-- Events of the submission layer: editing, arming an action, the two
submit entry points (with the backend's answer to the dispatch), and the
completion push resolving the outstanding Invocation. -/
inductive DEvent
  | setText (t : String)
  | selectA (a : String)
  | clickSend (r : SubmitResult)
  | pressEnter (r : SubmitResult)
  | resolveCompleted (msg : String)
deriving DecidableEq, Repr

/-- One step of the submission layer.  The message bar transitions are the
component's own (submitAction, the Send button's disabled attribute, the
disabled textarea); the glue is modelled from the spec: the page keeps the
`disabled` prop equal to "an Invocation is outstanding" (single outstanding
agent task per session) and appends the Invocation a dispatch creates. -/
def step (s : DispatchState) (e : DEvent) : DispatchState :=
  match e with
  | DEvent.setText t => { s with mb := { s.mb with inputText := t } }
  | DEvent.selectA a =>
    { s with mb := { s.mb with selectedAction := some a, inputText := "" } }
  | DEvent.clickSend r =>
    match sendButtonClick s.mb with
    | (_, none) => s
    | (mb1, some act) =>
      let invs := s.invocations ++ [mkInvocation act r]
      { mb := { mb1 with disabled := anyStarted invs }, invocations := invs }
  | DEvent.pressEnter r =>
    match enterKeydown s.mb with
    | (_, none) => s
    | (mb1, some act) =>
      let invs := s.invocations ++ [mkInvocation act r]
      { mb := { mb1 with disabled := anyStarted invs }, invocations := invs }
  | DEvent.resolveCompleted _ =>
    let invs := s.invocations.map resolveInv
    { s with mb := { s.mb with disabled := anyStarted invs }, invocations := invs }

/-- The initial state: empty buffer, nothing armed, enabled, no
Invocations. -/
def initState : DispatchState :=
  { mb := { inputText := "", selectedAction := none, disabled := false }, invocations := [] }

/-- Running a sequence of submission-layer events from the initial state. -/
def runEvents (es : List DEvent) : DispatchState :=
  List.foldl step initState es

/-- Glue invariant: the `disabled` prop reflects an outstanding
Invocation. -/
def GlueInv (s : DispatchState) : Prop :=
  s.mb.disabled = anyStarted s.invocations

/-- Safety invariant: at most one Invocation is `Started`. -/
def CountInv (s : DispatchState) : Prop :=
  startedCount s.invocations ≤ 1

end Dispatch

namespace MessageBar

/-- enableSend of the goto action (messagebar component ACTIONS). -/
def gotoEnableSend (t : String) : Bool :=
  strStartsWith t "http" || strStartsWith t "www"

/-- enableSend of the get_actions action. -/
def getActionsEnableSend (t : String) : Bool :=
  decide (0 < t.length)

/-- enableSend of the prompt action. -/
def promptEnableSend (t : String) : Bool :=
  decide (0 < t.length)

/-- The validator of the action with the given id. -/
def enableSendOf (actionId : String) (t : String) : Bool :=
  if actionId = "goto" then gotoEnableSend t
  else if actionId = "get_actions" then getActionsEnableSend t
  else if actionId = "prompt" then promptEnableSend t
  else false

/-- Modelled from the spec: the routing from a dispatched action to the
matching Command definition's dispatch (the page component doing this is
not under src/; the spec's data flow is input state machine to dispatcher
to REST call).  The per-command behavior is the registry in browser.svelte:
goto runs navigateToURL, get_actions resolves statically with no call,
prompt runs the runAgent wrapper. -/
def commandOnSend (res : RestResult) (actionId : String) (text : String) (st : Store) :
    Store × List NetCall :=
  if actionId = "goto" then
    let r := BrowserCmd.navigateToURL res text st
    (r.1, r.2.1)
  else if actionId = "get_actions" then (st, [])
  else if actionId = "prompt" then
    let r := BrowserCmd.runAgent res text st
    (r.1, r.2.1)
  else (st, [])

/-- A full submission: submitAction of the message bar, then (when a
dispatch occurred) the dispatched action's command runs against the
store. -/
def submitPipeline (res : RestResult) (mb : Dispatch.MBState) (st : Store) :
    Dispatch.MBState × Store × List NetCall :=
  match Dispatch.submitAction mb with
  | (mb1, none) => (mb1, st, [])
  | (mb1, some act) =>
    let r := commandOnSend res act.action act.value st
    (mb1, r.1, r.2)

end MessageBar

namespace AgentMsg

/-- Push update status values (the global Update interface). -/
inductive UStatus
  | step
  | failed
  | completed
deriving DecidableEq, Repr

/-- A push update as the updates store holds them: status, the interaction
identifier and the payload's message. -/
structure Update where
  status : UStatus
  interaction_id : String
  dataMessage : String
deriving DecidableEq, Repr

/-- Local state of the agent message component: its `response` text and
whether its updates-store subscription is still active. -/
structure AgentView where
  response : String
  subscribed : Bool
deriving DecidableEq, Repr

/-- The updates-store subscription callback of the agent message component
(onMount, started branch): with a non-empty updates list it reads only the
last update; on status completed it stores the payload message,
unsubscribes, empties the updates store and sets turn to idle — resolving
the outstanding Invocation to `Completed`; a step or failed status leaves
everything unchanged.  No interaction id is ever compared. -/
def onUpdate (upd : List Update) (inv : Dispatch.Invocation) (t : Turn) (v : AgentView) :
    Dispatch.Invocation × Turn × AgentView × List Update :=
  if v.subscribed = true then
    match upd.getLast? with
    | none => (inv, t, v, upd)
    | some last =>
      if last.status = UStatus.completed then
        ({ inv with state := Dispatch.InvState.completed }, Turn.idle,
         { response := last.dataMessage, subscribed := false }, [])
      else (inv, t, v, upd)
  else (inv, t, v, upd)

end AgentMsg

/-- The client-wide state relevant to channel disconnection: the browser
store, the turn store and the tracked Invocations.  disconnectWebSocket is
the only code run on disconnect and it touches only the browser store. -/
structure AppState where
  store : Store
  turn : Turn
  invocations : List Dispatch.Invocation
deriving DecidableEq, Repr

/-- Channel disconnection at the application level: exactly
disconnectWebSocket; nothing in the source reacts to a disconnect by
touching the turn store or any Invocation. -/
def disconnectApp (a : AppState) : AppState :=
  { a with store := BrowserStore.disconnectWebSocket a.store }

/-- An example store with an open, connected channel. -/
def storeOpenEx : Store :=
  { connected := true, messages := [], browserScreenshot := "", isLoading := false,
    browserStatus := BrowserStatus.running, urlInput := "", promptInput := "",
    fpsValue := 5, socket := some ReadyState.OPEN, pingInterval := some 1 }

/-- An example store with the channel fully closed. -/
def storeClosedEx : Store :=
  { connected := false, messages := [], browserScreenshot := "", isLoading := false,
    browserStatus := BrowserStatus.idle, urlInput := "", promptInput := "",
    fpsValue := 5, socket := none, pingInterval := none }

/-- An example outstanding Invocation with interaction id x1. -/
def exInvocation : Dispatch.Invocation :=
  { commandId := "prompt", inputText := "summarize this page",
    state := Dispatch.InvState.started, interactionId := some "x1" }

/-- An example application state with that Invocation outstanding. -/
def exApp : AppState :=
  { store := storeOpenEx, turn := Turn.running, invocations := [exInvocation] }

/-- A completed push update whose interaction id x2 differs from x1. -/
def updMismatch : AgentMsg.Update :=
  { status := AgentMsg.UStatus.completed, interaction_id := "x2", dataMessage := "Done" }

/-- A completed push update with the matching interaction id x1. -/
def updDone : AgentMsg.Update :=
  { status := AgentMsg.UStatus.completed, interaction_id := "x1", dataMessage := "Done" }

/-
Theorems.  Each claim has exactly one theorem; counterexamples and
witnesses are separate closed statements.
-/

/-- C6: a REST failure of the start-browser call (made while the phase is
Starting, which startBrowser enters first) reverts the phase to Idle; a
failure of the stop-browser call (made while Stopping) reverts it to
Running; start succeeds into Running and stop succeeds into Idle. -/
theorem c6_browser_phase_transitions :
    ∀ (st : Store) (m e : String),
      (BrowserStore.startBrowser (RestResult.failure e) st).1.browserStatus =
        BrowserStatus.idle ∧
      (BrowserStore.startBrowser (RestResult.success m) st).1.browserStatus =
        BrowserStatus.running ∧
      (BrowserStore.stopBrowser (RestResult.failure e) st).1.browserStatus =
        BrowserStatus.running ∧
      (BrowserStore.stopBrowser (RestResult.success m) st).1.browserStatus =
        BrowserStatus.idle := by
  intro st m e
  exact ⟨rfl, rfl, rfl, rfl⟩

/-- C5: the code never propagates the interaction identifier.  The store's
runAgent logs the backend's message and returns undefined in every branch,
so the command wrapper's id check never fires and the wrapper itself
resolves undefined — no Invocation becomes Started with an identifier and
nothing is handed to a correlator. -/
theorem c5_interaction_id_never_returned :
    ∀ (res : RestResult) (prompt : String) (st : Store),
      (BrowserStore.runAgent res prompt st).2.2 = none ∧
      (BrowserCmd.runAgent res prompt st).2.2 = BrowserCmd.AgentOutcome.undefinedResult := by
  intro res prompt st
  by_cases hp : prompt = "" <;> cases res <;>
    simp [BrowserStore.runAgent, BrowserCmd.runAgent, BrowserStore.addMessage, hp]

/-- C8: the store's navigateToUrl never writes browserStatus in any branch,
and a successful dispatch of a non-empty URL appends the backend's message
to the log. -/
theorem c8_navigate_preserves_phase :
    ∀ (res : RestResult) (url : String) (st : Store),
      (BrowserStore.navigateToUrl res url st).1.browserStatus = st.browserStatus ∧
      (∀ m : String, res = RestResult.success m → ¬url = "" →
        (BrowserStore.navigateToUrl res url st).1.messages = st.messages ++ [m]) := by
  intro res url st
  constructor
  · by_cases hu : url = "" <;> cases res <;>
      simp [BrowserStore.navigateToUrl, BrowserStore.addMessage, hu]
  · intro m hres hu
    subst hres
    simp [BrowserStore.navigateToUrl, BrowserStore.addMessage, hu]

/-- C8 witness: a concrete successful navigate dispatch keeps the phase and
appends the response message. -/
theorem c8_navigate_witness :
    (BrowserStore.navigateToUrl (RestResult.success "Navigated") "https://www.example.com"
        storeOpenEx).1.browserStatus = storeOpenEx.browserStatus ∧
    (BrowserStore.navigateToUrl (RestResult.success "Navigated") "https://www.example.com"
        storeOpenEx).1.messages = storeOpenEx.messages ++ ["Navigated"] :=
  ⟨(c8_navigate_preserves_phase (RestResult.success "Navigated") "https://www.example.com"
      storeOpenEx).1,
   (c8_navigate_preserves_phase (RestResult.success "Navigated") "https://www.example.com"
      storeOpenEx).2 "Navigated" rfl (by decide)⟩

/-- C7: connect while the socket is already OPEN is a no-op (same socket,
same keepalive, nothing else changed); disconnect while the channel is
already closed is a no-op; opening arms the keepalive interval and both
close paths cancel it. -/
theorem c7_connect_disconnect_idempotent :
    (∀ st : Store, st.socket = some ReadyState.OPEN →
      BrowserStore.connectWebSocket st = st) ∧
    (∀ st : Store, st.socket = none → st.pingInterval = none → st.connected = false →
      BrowserStore.disconnectWebSocket st = st) ∧
    (∀ (st : Store) (intervalId : Nat),
      (BrowserStore.wsOnOpen intervalId st).pingInterval = some intervalId) ∧
    (∀ st : Store,
      (BrowserStore.wsOnClose st).pingInterval = none ∧
      (BrowserStore.disconnectWebSocket st).pingInterval = none) := by
  refine ⟨?_, ?_, ?_, ?_⟩
  · intro st h
    unfold BrowserStore.connectWebSocket
    rw [h]
  · intro st h1 h2 h3
    unfold BrowserStore.disconnectWebSocket
    cases st
    simp_all
  · intro st intervalId
    rfl
  · intro st
    exact ⟨rfl, rfl⟩

/-- C7 witness: connect on a concrete open store and disconnect on a
concrete closed store are both identities. -/
theorem c7_idempotence_witness :
    BrowserStore.connectWebSocket storeOpenEx = storeOpenEx ∧
    BrowserStore.disconnectWebSocket storeClosedEx = storeClosedEx :=
  ⟨c7_connect_disconnect_idempotent.1 storeOpenEx rfl,
   c7_connect_disconnect_idempotent.2.1 storeClosedEx rfl rfl rfl⟩

/-- C4 counterexample: with an Invocation Started (interaction id x1) and
the turn store running, disconnecting the channel leaves the Invocation
Started — it does not transition to Failed and the slot is not cleared. -/
theorem c4_disconnect_counterexample :
    exApp.invocations.map Dispatch.Invocation.state = [Dispatch.InvState.started] ∧
    (disconnectApp exApp).invocations.map Dispatch.Invocation.state =
      [Dispatch.InvState.started] ∧
    Dispatch.InvState.started ≠ Dispatch.InvState.failed ∧
    (disconnectApp exApp).turn = exApp.turn := by
  decide

/-- C4 amended: disconnecting the push channel closes the socket, cancels
the keepalive and sets connectivity to Disconnected, but leaves the turn
store and every Invocation — in particular a Started one — unchanged; the
outstanding slot is not cleared and nothing transitions to Failed. -/
theorem c4_disconnect_leaves_invocations :
    ∀ a : AppState,
      (disconnectApp a).invocations = a.invocations ∧
      (disconnectApp a).turn = a.turn ∧
      (disconnectApp a).store.connected = false ∧
      (disconnectApp a).store.socket = none ∧
      (disconnectApp a).store.pingInterval = none := by
  intro a
  exact ⟨rfl, rfl, rfl, rfl, rfl⟩

/-- C9: every dispatch from the fps control issues the set-fps call with
the range input's clamped value, which lies in the interval from 1 to
30. -/
theorem c9_fps_clamped :
    ∀ (v : Int) (res : RestResult) (st : Store),
      (applyFpsClick res v st).2 = [NetCall.streamingSetFps (fpsControlValue v)] ∧
      1 ≤ fpsControlValue v ∧ fpsControlValue v ≤ 30 := by
  intro v res st
  refine ⟨?_, ?_, ?_⟩
  · cases res <;> rfl
  · exact le_max_left 1 (min 30 v)
  · exact max_le (by norm_num) (min_le_left 30 v)

/-- C2 counterexample: the outstanding Invocation has interaction id x1;
a Completed push update carrying the different id x2 is not discarded —
the handler resolves the Invocation to Completed with that update's
payload, so its state changes. -/
theorem c2_stale_update_counterexample :
    exInvocation.interactionId = some "x1" ∧
    updMismatch.interaction_id = "x2" ∧
    updMismatch.status = AgentMsg.UStatus.completed ∧
    (AgentMsg.onUpdate [updMismatch] exInvocation Turn.running
        { response := "", subscribed := true }).1.state = Dispatch.InvState.completed ∧
    Dispatch.InvState.completed ≠ Dispatch.InvState.started := by
  decide

/-- C2 amended: the update handler never compares interaction ids.  While
the subscription is active, the last update being Completed resolves the
outstanding Invocation to Completed with that update's payload (whatever
its interactionId, matching or not), and a terminal Failed update is never
handled at all — the Invocation and stores stay unchanged. -/
theorem c2_updates_resolved_regardless_of_id :
    ∀ (us : List AgentMsg.Update) (u : AgentMsg.Update) (inv : Dispatch.Invocation)
      (t : Turn) (v : AgentMsg.AgentView),
      v.subscribed = true →
      ((u.status = AgentMsg.UStatus.completed →
          AgentMsg.onUpdate (us ++ [u]) inv t v =
            ({ inv with state := Dispatch.InvState.completed }, Turn.idle,
             { response := u.dataMessage, subscribed := false }, [])) ∧
       (u.status = AgentMsg.UStatus.failed →
          AgentMsg.onUpdate (us ++ [u]) inv t v = (inv, t, v, us ++ [u]))) := by
  intro us u inv t v hv
  constructor
  · intro hc
    unfold AgentMsg.onUpdate
    rw [hv, List.getLast?_concat]
    simp [hc]
  · intro hf
    unfold AgentMsg.onUpdate
    rw [hv, List.getLast?_concat]
    have : ¬u.status = AgentMsg.UStatus.completed := by
      rw [hf]; intro h; cases h
    simp [this]

/-- C2 amended witness: a concrete Completed update with the matching id
resolves the concrete outstanding Invocation. -/
theorem c2_resolution_witness :
    AgentMsg.onUpdate [updDone] exInvocation Turn.running
        { response := "", subscribed := true } =
      ({ exInvocation with state := Dispatch.InvState.completed }, Turn.idle,
       { response := "Done", subscribed := false }, []) :=
  (c2_updates_resolved_regardless_of_id [] updDone exInvocation Turn.running
      { response := "", subscribed := true } rfl).1 rfl

/-- C3 counterexample: with the goto action armed and the text
"example.com", the goto validator returns false (the text starts with
neither "http" nor "www"), yet submitAction still dispatches the action —
the validator is never consulted on the submit path — and the submission
pipeline issues the navigate REST call and changes the session state
(loading flag set, log appended).  Not a local no-op. -/
theorem c3_validate_not_consulted_counterexample :
    MessageBar.gotoEnableSend "example.com" = false ∧
    (Dispatch.submitAction
        { inputText := "example.com", selectedAction := some "goto", disabled := false }).2 =
      some { action := "goto", value := "example.com" } ∧
    (MessageBar.submitPipeline (RestResult.success "ok")
        { inputText := "example.com", selectedAction := some "goto", disabled := false }
        storeOpenEx).2.2 = [NetCall.browserNavigate "https://example.com"] ∧
    (MessageBar.submitPipeline (RestResult.success "ok")
        { inputText := "example.com", selectedAction := some "goto", disabled := false }
        storeOpenEx).2.1 ≠ storeOpenEx := by
  decide

/-- C3 amended: submission is gated only on a non-empty buffer and an
armed action, never on the action's validator.  For the prompt and
get_actions actions the validator is exactly "text non-empty", so a
submission failing it is indeed a local no-op with no network call; but a
goto submission failing its validator is still dispatched and can make a
network call (see the counterexample). -/
theorem c3_empty_text_submission_is_noop :
    ∀ (aid : String) (mb : Dispatch.MBState) (res : RestResult) (st : Store),
      mb.selectedAction = some aid →
      (aid = "prompt" ∨ aid = "get_actions") →
      MessageBar.enableSendOf aid mb.inputText = false →
      MessageBar.submitPipeline res mb st = (mb, st, []) := by
  intro aid mb res st hsel haid hval
  have hlen : mb.inputText.length = 0 := by
    rcases haid with h | h <;> subst h <;>
      simpa [MessageBar.enableSendOf, MessageBar.promptEnableSend,
        MessageBar.getActionsEnableSend] using hval
  have hdata : mb.inputText.data = [] := List.length_eq_zero.mp hlen
  have hempty : mb.inputText = "" := by
    cases hmb : mb.inputText with
    | mk d =>
      rw [hmb] at hdata
      simp at hdata
      rw [hdata]
  have hsub : Dispatch.submitAction mb = (mb, none) := by
    unfold Dispatch.submitAction
    rw [if_pos (Or.inl hempty)]
  unfold MessageBar.submitPipeline
  rw [hsub]

/-- C3 amended witness: an empty prompt submission (validator false) is a
local no-op. -/
theorem c3_noop_witness :
    MessageBar.submitPipeline (RestResult.success "ok")
        { inputText := "", selectedAction := some "prompt", disabled := false }
        storeOpenEx =
      ({ inputText := "", selectedAction := some "prompt", disabled := false },
       storeOpenEx, []) :=
  c3_empty_text_submission_is_noop "prompt"
    { inputText := "", selectedAction := some "prompt", disabled := false }
    (RestResult.success "ok") storeOpenEx rfl (Or.inl rfl) (by decide)

/-- A Send click that dispatched implies the button was not disabled. -/
theorem dispatch_sendButtonClick_enabled (mb mb1 : Dispatch.MBState) (act : Dispatch.DAction)
    (h : Dispatch.sendButtonClick mb = (mb1, some act)) : mb.disabled = false := by
  unfold Dispatch.sendButtonClick at h
  by_cases hc : mb.inputText = "" ∨ mb.selectedAction = none ∨ mb.disabled = true
  · rw [if_pos hc] at h
    simp at h
  · rw [if_neg hc] at h
    push_neg at hc
    cases hb : mb.disabled with
    | false => rfl
    | true => exact absurd hb hc.2.2

/-- An Enter submission that dispatched implies the textarea was not
disabled. -/
theorem dispatch_enterKeydown_enabled (mb mb1 : Dispatch.MBState) (act : Dispatch.DAction)
    (h : Dispatch.enterKeydown mb = (mb1, some act)) : mb.disabled = false := by
  cases hb : mb.disabled with
  | false => rfl
  | true =>
    unfold Dispatch.enterKeydown at h
    rw [if_pos hb] at h
    simp at h

/-- No Invocation Started means the Started count is zero. -/
theorem dispatch_anyStarted_false_count (l : List Dispatch.Invocation)
    (h : Dispatch.anyStarted l = false) : Dispatch.startedCount l = 0 := by
  induction l with
  | nil => rfl
  | cons i t ih =>
    simp only [Dispatch.anyStarted, List.any_cons, Bool.or_eq_false_iff] at h
    simp only [Dispatch.startedCount, List.filter_cons, h.1]
    exact ih h.2

/-- Started count distributes over append. -/
theorem dispatch_startedCount_append (l1 l2 : List Dispatch.Invocation) :
    Dispatch.startedCount (l1 ++ l2) =
      Dispatch.startedCount l1 + Dispatch.startedCount l2 := by
  simp [Dispatch.startedCount, List.filter_append]

/-- A single Invocation contributes at most one Started. -/
theorem dispatch_startedCount_singleton (i : Dispatch.Invocation) :
    Dispatch.startedCount [i] ≤ 1 :=
  List.length_filter_le Dispatch.isStartedInv [i]

/-- Resolving leaves no Invocation Started. -/
theorem dispatch_resolve_not_started (i : Dispatch.Invocation) :
    Dispatch.isStartedInv (Dispatch.resolveInv i) = false := by
  unfold Dispatch.isStartedInv Dispatch.resolveInv
  split
  · simp
  · simp_all

/-- After the completion event no Invocation is Started. -/
theorem dispatch_startedCount_resolve (l : List Dispatch.Invocation) :
    Dispatch.startedCount (l.map Dispatch.resolveInv) = 0 := by
  induction l with
  | nil => rfl
  | cons i t ih =>
    simp only [List.map_cons, Dispatch.startedCount, List.filter_cons,
      dispatch_resolve_not_started]
    exact ih

/-- One step preserves both the glue invariant (disabled reflects an
outstanding Invocation) and the safety bound (at most one Started). -/
theorem dispatch_step_preserves (s : Dispatch.DispatchState) (e : Dispatch.DEvent)
    (h1 : Dispatch.GlueInv s) (h2 : Dispatch.CountInv s) :
    Dispatch.GlueInv (Dispatch.step s e) ∧ Dispatch.CountInv (Dispatch.step s e) := by
  cases e with
  | setText t => exact ⟨h1, h2⟩
  | selectA a => exact ⟨h1, h2⟩
  | clickSend r =>
    rcases hsb : Dispatch.sendButtonClick s.mb with ⟨mb1, d⟩
    cases d with
    | none =>
      simp only [Dispatch.step, hsb]
      exact ⟨h1, h2⟩
    | some act =>
      simp only [Dispatch.step, hsb]
      constructor
      · rfl
      · have hd : s.mb.disabled = false := dispatch_sendButtonClick_enabled s.mb mb1 act hsb
        have hany : Dispatch.anyStarted s.invocations = false := h1.symm.trans hd
        have h0 := dispatch_anyStarted_false_count s.invocations hany
        unfold Dispatch.CountInv
        rw [dispatch_startedCount_append, h0]
        simpa using dispatch_startedCount_singleton (Dispatch.mkInvocation act r)
  | pressEnter r =>
    rcases hsb : Dispatch.enterKeydown s.mb with ⟨mb1, d⟩
    cases d with
    | none =>
      simp only [Dispatch.step, hsb]
      exact ⟨h1, h2⟩
    | some act =>
      simp only [Dispatch.step, hsb]
      constructor
      · rfl
      · have hd : s.mb.disabled = false := dispatch_enterKeydown_enabled s.mb mb1 act hsb
        have hany : Dispatch.anyStarted s.invocations = false := h1.symm.trans hd
        have h0 := dispatch_anyStarted_false_count s.invocations hany
        unfold Dispatch.CountInv
        rw [dispatch_startedCount_append, h0]
        simpa using dispatch_startedCount_singleton (Dispatch.mkInvocation act r)
  | resolveCompleted msg =>
    constructor
    · rfl
    · unfold Dispatch.CountInv
      simp only [Dispatch.step]
      rw [dispatch_startedCount_resolve]
      exact Nat.zero_le 1

/-- Both invariants hold along every run. -/
theorem dispatch_run_preserves (es : List Dispatch.DEvent) :
    ∀ s : Dispatch.DispatchState, Dispatch.GlueInv s → Dispatch.CountInv s →
      Dispatch.GlueInv (List.foldl Dispatch.step s es) ∧
      Dispatch.CountInv (List.foldl Dispatch.step s es) := by
  induction es with
  | nil => intro s h1 h2; exact ⟨h1, h2⟩
  | cons e t ih =>
    intro s h1 h2
    have h := dispatch_step_preserves s e h1 h2
    exact ih (Dispatch.step s e) h.1 h.2

/-- A disabled message bar rejects a Send click without any change. -/
theorem dispatch_click_rejected (s : Dispatch.DispatchState) (r : Dispatch.SubmitResult)
    (h : s.mb.disabled = true) : Dispatch.step s (Dispatch.DEvent.clickSend r) = s := by
  have hsb : Dispatch.sendButtonClick s.mb = (s.mb, none) := by
    unfold Dispatch.sendButtonClick
    rw [if_pos (Or.inr (Or.inr h))]
  simp only [Dispatch.step, hsb]

/-- A disabled message bar rejects an Enter submission without any
change. -/
theorem dispatch_enter_rejected (s : Dispatch.DispatchState) (r : Dispatch.SubmitResult)
    (h : s.mb.disabled = true) : Dispatch.step s (Dispatch.DEvent.pressEnter r) = s := by
  have hsb : Dispatch.enterKeydown s.mb = (s.mb, none) := by
    unfold Dispatch.enterKeydown
    rw [if_pos h]
  simp only [Dispatch.step, hsb]

/-- C1: along every event sequence from the initial state, at most one
Invocation is ever Started; and in any reached state with an Invocation
Started, a submission attempt — by Send click or by Enter — is rejected:
the state is unchanged, so no dispatch occurs and no second Invocation
enters Started. -/
theorem c1_single_started_invocation :
    (∀ es : List Dispatch.DEvent,
      Dispatch.startedCount (Dispatch.runEvents es).invocations ≤ 1) ∧
    (∀ (es : List Dispatch.DEvent) (r : Dispatch.SubmitResult),
      Dispatch.anyStarted (Dispatch.runEvents es).invocations = true →
        Dispatch.step (Dispatch.runEvents es) (Dispatch.DEvent.clickSend r) =
          Dispatch.runEvents es ∧
        Dispatch.step (Dispatch.runEvents es) (Dispatch.DEvent.pressEnter r) =
          Dispatch.runEvents es) := by
  have hinit1 : Dispatch.GlueInv Dispatch.initState := rfl
  have hinit2 : Dispatch.CountInv Dispatch.initState := Nat.zero_le 1
  constructor
  · intro es
    exact (dispatch_run_preserves es Dispatch.initState hinit1 hinit2).2
  · intro es r h
    have hGI := (dispatch_run_preserves es Dispatch.initState hinit1 hinit2).1
    have hd : (Dispatch.runEvents es).mb.disabled = true := hGI.trans h
    exact ⟨dispatch_click_rejected (Dispatch.runEvents es) r hd,
           dispatch_enter_rejected (Dispatch.runEvents es) r hd⟩

/-- C1 witness: a run arming the prompt action, typing text and submitting
(backend answers with an asynchronous start, id x1) reaches a state with
one Started Invocation; the bound holds there and a further Send click in
that state is rejected unchanged. -/
theorem c1_single_started_witness :
    Dispatch.startedCount
      (Dispatch.runEvents
        [Dispatch.DEvent.selectA "prompt", Dispatch.DEvent.setText "hi",
         Dispatch.DEvent.clickSend (Dispatch.SubmitResult.startedWith "x1")]).invocations ≤ 1 ∧
    Dispatch.step
        (Dispatch.runEvents
          [Dispatch.DEvent.selectA "prompt", Dispatch.DEvent.setText "hi",
           Dispatch.DEvent.clickSend (Dispatch.SubmitResult.startedWith "x1")])
        (Dispatch.DEvent.clickSend (Dispatch.SubmitResult.startedWith "x2")) =
      Dispatch.runEvents
        [Dispatch.DEvent.selectA "prompt", Dispatch.DEvent.setText "hi",
         Dispatch.DEvent.clickSend (Dispatch.SubmitResult.startedWith "x1")] :=
  ⟨c1_single_started_invocation.1
     [Dispatch.DEvent.selectA "prompt", Dispatch.DEvent.setText "hi",
      Dispatch.DEvent.clickSend (Dispatch.SubmitResult.startedWith "x1")],
   (c1_single_started_invocation.2
     [Dispatch.DEvent.selectA "prompt", Dispatch.DEvent.setText "hi",
      Dispatch.DEvent.clickSend (Dispatch.SubmitResult.startedWith "x1")]
     (Dispatch.SubmitResult.startedWith "x2") (by decide)).1⟩
